import Mathlib

/-!
# Daemon Codex provider layer — verification development

Shallow embedding of the provider routing / privacy-enforcement / retry layer
of the Daemon Codex file organizer:

* data model (`PrivacyLevel`, `LlmRequest`, `LlmResponse`, …) from
  `src/app/include/IProvider.hpp`;
* `OpenAIProvider` from `src/app/lib/OpenAIProvider.cpp`;
* `OllamaCloudProvider` from `src/app/lib/OllamaCloudProvider.cpp` and its
  header (`src/unnamed/part_005`);
* `LocalProvider` from `src/app/lib/LocalProvider.cpp` and the alternate
  implementation in `src/unnamed/part_002`;
* `ProviderManager` from `src/unnamed/part_002` /
  `src/app/include/ProviderManager.hpp`.

Collaborators (the LLM client, the HTTP transport, the filesystem) are
modelled as explicit function parameters, mirroring the dependency-injection
hooks (`ClientFactory`, `HttpClient`) the C++ code exposes for its tests.
Where a claim needs to observe that a collaborator was or was not invoked,
the embedded operation additionally returns the calls it made (an
`Option` of the arguments, or an attempt count); the `LlmResponse` component
is the value the C++ function returns.
-/

/-- `enum class PrivacyLevel` from IProvider.hpp. -/
inductive PrivacyLevel where
  | LocalOnly
  | MetadataOnly
  | ContentExcerpt
  | FullContent
  deriving DecidableEq, Repr

/-- `enum class MessageRole` from IProvider.hpp. -/
inductive MessageRole where
  | System
  | User
  | Assistant
  deriving DecidableEq, Repr

/-- `struct ChatMessage` from IProvider.hpp. -/
structure ChatMessage where
  role : MessageRole
  content : String
  deriving DecidableEq, Repr

/-- `struct LlmRequest` from IProvider.hpp, with the C++ default member
initializers. `temperature`, `top_p` (floats) and `content_excerpt_budget`
are carried by no operation any claim concerns and are omitted. -/
structure LlmRequest where
  messages : List ChatMessage := []
  model : String := ""
  max_tokens : Int := 256
  timeout_ms : Int := 30000
  privacy_level : PrivacyLevel := .MetadataOnly
  allow_content_upload : Bool := false
  max_retries : Int := 3
  retry_backoff_base_ms : Int := 1000
  deriving DecidableEq, Repr

/-- `struct TokenUsage` from IProvider.hpp. -/
structure TokenUsage where
  prompt_tokens : Int := 0
  completion_tokens : Int := 0
  total_tokens : Int := 0
  deriving DecidableEq, Repr

/-- `struct LlmResponse` from IProvider.hpp, with the C++ default member
initializers. `latency` (wall-clock time measured around the underlying
call) is environment time and is not modelled. -/
structure LlmResponse where
  text : String := ""
  usage : TokenUsage := {}
  provider_id : String := ""
  model_used : String := ""
  success : Bool := false
  error_code : Int := 0
  error_message : String := ""
  used_remote_inference : Bool := false
  actual_privacy_level : PrivacyLevel := .LocalOnly
  deriving DecidableEq, Repr

/-- `enum class HealthStatus` from IProvider.hpp. -/
inductive HealthStatus where
  | Healthy
  | Degraded
  | Unavailable
  | NotConfigured
  deriving DecidableEq, Repr

/-- `enum class ProviderHealth` from the alternate provider interface
(src/unnamed/part_004). -/
inductive ProviderHealth where
  | Healthy
  | Degraded
  | Unavailable
  | Unknown
  deriving DecidableEq, Repr

/-- `enum FileType` (Types.hpp): the kind tag handed to
`ILLMClient::categorize_file`. -/
inductive FileType where
  | File
  | Directory
  deriving DecidableEq, Repr

/-- Outcome of an `ILLMClient` call: `.ok text` for a normal return,
`.error what` when the underlying client throws `std::exception` with
message `what`. -/
abbrev ClientResult := Except String String

/-- `ILLMClient::complete_prompt(prompt, max_tokens)` as an injected
collaborator. -/
abbrev CompleteFn := String → Int → ClientResult

/-- `ILLMClient::categorize_file(name, path, type, consistency_context)` as
an injected collaborator. -/
abbrev CategorizeFn := String → String → FileType → String → ClientResult

namespace OpenAIProvider

/-- State of an `OpenAIProvider` (src/app/lib/OpenAIProvider.cpp): the
constructor replaces an empty model string by `"gpt-4o-mini"`. -/
structure State where
  api_key : String
  model : String
  deriving DecidableEq, Repr

/-- `OpenAIProvider::OpenAIProvider(api_key, model, client_factory)`. -/
def construct (api_key model : String) : State :=
  { api_key := api_key
    model := if model.isEmpty then "gpt-4o-mini" else model }

/-- `OpenAIProvider::id()`. -/
def provider_id : String := "openai"

/-- `OpenAIProvider::requires_network()` (OpenAIProvider.hpp, part_003). -/
def requires_network : Bool := true

/-- `OpenAIProvider::is_configured()`. -/
def is_configured (p : State) : Bool :=
  !p.api_key.isEmpty

/-- `OpenAIProvider::health_check()`. -/
def health_check (p : State) : HealthStatus :=
  if p.api_key.isEmpty then .NotConfigured else .Healthy

/-- `OpenAIProvider::create_privacy_error(reason)`. -/
def create_privacy_error (p : State) (reason : String) : LlmResponse :=
  { provider_id := provider_id
    model_used := p.model
    success := false
    error_code := 403
    error_message := "Privacy control blocked request: " ++ reason
    used_remote_inference := false }

/-- The prompt `OpenAIProvider::chat` builds: in-order concatenation of the
contents of the User-role messages (OpenAIProvider.cpp lines 130-136). -/
def combined_prompt (messages : List ChatMessage) : String :=
  messages.foldl
    (fun acc msg => if msg.role = .User then acc ++ msg.content else acc) ""

/-- Result of `OpenAIProvider::chat`: the returned response together with
the call made to `ILLMClient::complete_prompt`, if any. -/
structure ChatOutcome where
  response : LlmResponse
  client_call : Option (String × Int)
  deriving DecidableEq, Repr

/-- `OpenAIProvider::chat(request)` (OpenAIProvider.cpp lines 100-159),
with the underlying client injected as `complete`. -/
def chat (p : State) (complete : CompleteFn) (request : LlmRequest) :
    ChatOutcome :=
  let base : LlmResponse :=
    { provider_id := provider_id
      model_used := p.model
      used_remote_inference := true
      actual_privacy_level := request.privacy_level }
  if request.privacy_level = .LocalOnly then
    { response :=
        create_privacy_error p
          "Request is marked LocalOnly but sent to remote provider"
      client_call := none }
  else if !request.allow_content_upload ∧
      request.privacy_level = .FullContent then
    { response :=
        create_privacy_error p
          "Full content upload requested but not explicitly allowed"
      client_call := none }
  else if !is_configured p then
    { response :=
        { base with
          success := false
          error_code := 1
          error_message := "OpenAI provider not configured: API key missing"
          used_remote_inference := false }
      client_call := none }
  else
    let prompt := combined_prompt request.messages
    match complete prompt request.max_tokens with
    | .ok result =>
        { response := { base with text := result, success := true }
          client_call := some (prompt, request.max_tokens) }
    | .error what =>
        { response :=
            { base with
              success := false
              error_code := 2
              error_message := "OpenAI request failed: " ++ what }
          client_call := some (prompt, request.max_tokens) }

/-- Result of `OpenAIProvider::categorize`: response plus the call made to
`ILLMClient::categorize_file`, if any. -/
structure CategorizeOutcome where
  response : LlmResponse
  client_call : Option (String × String × FileType × String)
  deriving DecidableEq, Repr

/-- `OpenAIProvider::categorize(...)` (OpenAIProvider.cpp lines 161-222).
Note: unlike `chat`, the source checks only `LocalOnly`; there is no
`FullContent` / `allow_content_upload` rejection, and the full `filepath`
is passed to the client whenever content upload is consented OR the privacy
level is `FullContent`. -/
def categorize (p : State) (categorize_file : CategorizeFn)
    (filename filepath : String) (is_directory : Bool)
    (consistency_context : String) (base_request : LlmRequest) :
    CategorizeOutcome :=
  let base : LlmResponse :=
    { provider_id := provider_id
      model_used := p.model
      used_remote_inference := true
      actual_privacy_level := base_request.privacy_level }
  if base_request.privacy_level = .LocalOnly then
    { response :=
        create_privacy_error p
          "Categorization marked LocalOnly but sent to remote provider"
      client_call := none }
  else if !is_configured p then
    { response :=
        { base with
          success := false
          error_code := 1
          error_message := "OpenAI provider not configured: API key missing"
          used_remote_inference := false }
      client_call := none }
  else
    let safe_path :=
      if base_request.allow_content_upload ∨
          base_request.privacy_level = .FullContent then filepath
      else ""
    let file_type := if is_directory then FileType.Directory else FileType.File
    match categorize_file filename safe_path file_type consistency_context with
    | .ok result =>
        { response := { base with text := result, success := true }
          client_call :=
            some (filename, safe_path, file_type, consistency_context) }
    | .error what =>
        { response :=
            { base with
              success := false
              error_code := 2
              error_message := "OpenAI categorization failed: " ++ what }
          client_call :=
            some (filename, safe_path, file_type, consistency_context) }

end OpenAIProvider

/-- A JSON value as produced by the jsoncpp parse in
`OllamaCloudProvider::parse_chat_response`. The transport collaborator is
modelled as delivering the response body already parsed: `none` in
`HttpResponse.body` stands for a body `Json::parseFromStream` rejects. -/
inductive JVal where
  | jstr (s : String)
  | jnum (n : Int)
  | jbool (b : Bool)
  | jobj (fields : List (String × JVal))

namespace JVal

/-- `value.isMember(k)` / `value[k]` combined: the field value when the
receiver is an object holding key `k`, else `none`. -/
def get : JVal → String → Option JVal
  | .jobj fields, k => fields.lookup k
  | _, _ => none

/-- `Json::Value::asString()` restricted to the string case. -/
def asString : JVal → String
  | .jstr s => s
  | _ => ""

/-- `Json::Value::asInt()` restricted to the numeric case. -/
def asInt : JVal → Int
  | .jnum n => n
  | _ => 0

end JVal

namespace OllamaCloudProvider

/-- `struct OllamaCloudConfig` (src/unnamed/part_005) with its C++ default
member initializers. -/
structure OllamaCloudConfig where
  base_url : String := ""
  api_key : String := ""
  model : String := ""
  timeout_ms : Int := 30000
  max_retries : Int := 3
  retry_backoff_base_ms : Int := 1000
  deriving DecidableEq, Repr

/-- `OllamaCloudProvider::HttpResponse` (src/unnamed/part_005), with the
body carried as parsed JSON (see `JVal`). -/
structure HttpResponse where
  status_code : Int := 0
  body : Option JVal := none
  error : String := ""

/-- `HttpResponse::success()`: `200 <= status_code < 300`. -/
def HttpResponse.success (r : HttpResponse) : Bool :=
  decide (200 ≤ r.status_code) && decide (r.status_code < 300)

/-- The default-constructed `HttpResponse` the chat loop starts from. -/
def default_http_response : HttpResponse := {}

/-- The HTTP transport, abstracting `make_request` (URL joining, JSON
payload, bearer header): the response the chat endpoint returns to the
`n`-th attempt (`n = retry_count`, starting at 0). -/
abbrev Transport := Nat → HttpResponse

/-- `make_request` as seen by `health_check`: arguments are endpoint,
method, body, timeout_ms. -/
abbrev MakeRequest := String → String → String → Int → HttpResponse

/-- `OllamaCloudProvider::id()`. -/
def ollama_provider_id : String := "ollama-cloud"

/-- `OllamaCloudProvider::requires_network()` (src/unnamed/part_005). -/
def requires_network : Bool := true

/-- `OllamaCloudProvider::is_configured()`. -/
def is_configured (c : OllamaCloudConfig) : Bool :=
  !c.base_url.isEmpty && !c.model.isEmpty

/-- `OllamaCloudProvider::health_check()` (OllamaCloudProvider.cpp lines
63-77): NotConfigured when `base_url` is empty, else a GET against
`/api/version` with a 5000 ms timeout decides Healthy vs Unavailable. -/
def health_check (c : OllamaCloudConfig) (make_req : MakeRequest) :
    HealthStatus :=
  if c.base_url.isEmpty then .NotConfigured
  else if !(make_req "/api/version" "GET" "" 5000).success then .Unavailable
  else .Healthy

/-- `OllamaCloudProvider::create_privacy_error(reason)`. -/
def create_privacy_error (c : OllamaCloudConfig) (reason : String) :
    LlmResponse :=
  { provider_id := ollama_provider_id
    model_used := c.model
    success := false
    error_code := 403
    error_message := "Privacy control blocked request: " ++ reason
    used_remote_inference := false }

/-- `OllamaCloudProvider::create_config_error(reason)`. -/
def create_config_error (c : OllamaCloudConfig) (reason : String) :
    LlmResponse :=
  { provider_id := ollama_provider_id
    model_used := c.model
    success := false
    error_code := 1
    error_message := "Configuration error: " ++ reason
    used_remote_inference := false }

/-- `OllamaCloudProvider::parse_chat_response` (OllamaCloudProvider.cpp
lines 241-304), minus the latency field (wall-clock time, unmodelled). -/
def parse_chat_response (c : OllamaCloudConfig) (hr : HttpResponse) :
    LlmResponse :=
  let base : LlmResponse :=
    { provider_id := ollama_provider_id
      model_used := c.model
      used_remote_inference := true }
  if !hr.success then
    { base with
      success := false
      error_code := hr.status_code
      error_message :=
        "HTTP request failed: " ++ hr.error ++
          (if 0 < hr.status_code then
            " (status: " ++ toString hr.status_code ++ ")"
          else "") }
  else
    match hr.body with
    | none =>
        { base with
          success := false
          error_code := 3
          error_message := "Failed to parse JSON response" }
    | some root =>
        let parsed :=
          match (root.get "message").bind (fun m => m.get "content") with
          | some content =>
              { base with text := content.asString, success := true }
          | none =>
              match root.get "response" with
              | some r => { base with text := r.asString, success := true }
              | none =>
                  match root.get "error" with
                  | some e =>
                      { base with
                        success := false
                        error_message := e.asString }
                  | none =>
                      { base with
                        success := false
                        error_message := "Unexpected response format" }
        let prompt_tokens :=
          match root.get "prompt_eval_count" with
          | some v => v.asInt
          | none => 0
        let completion_tokens :=
          match root.get "eval_count" with
          | some v => v.asInt
          | none => 0
        { parsed with
          usage :=
            { prompt_tokens := prompt_tokens
              completion_tokens := completion_tokens
              total_tokens := prompt_tokens + completion_tokens } }

/-- The retry loop of `OllamaCloudProvider::chat` (OllamaCloudProvider.cpp
lines 349-372). `last` is the value of the `http_response` variable when
the loop is entered, `retry_count` the loop counter, and `fuel` the number
of iterations the guard `retry_count <= max_retries` still permits
(`max_retries + 1 - retry_count`). Returns the final `http_response`
together with the number of transport attempts performed and the list of
backoff sleeps (in ms) executed, in order. -/
def retry_loop (transport : Transport) (backoff_base : Int)
    (last : HttpResponse) (retry_count : Nat) (fuel : Nat) :
    HttpResponse × Nat × List Int :=
  match fuel with
  | 0 => (last, 0, [])
  | fuel' + 1 =>
    let sleeps : List Int :=
      if 0 < retry_count then [backoff_base * 2 ^ (retry_count - 1)] else []
    let r := transport retry_count
    if r.success = true ∨ (400 ≤ r.status_code ∧ r.status_code < 500) then
      (r, 1, sleeps)
    else
      let rest := retry_loop transport backoff_base r (retry_count + 1) fuel'
      (rest.1, rest.2.1 + 1, sleeps ++ rest.2.2)

/-- Result of `OllamaCloudProvider::chat`/`categorize`: the returned
response, the number of transport attempts made, and the backoff sleeps
executed (ms, in order). -/
structure RunOutcome where
  response : LlmResponse
  attempts : Nat
  sleeps : List Int
  deriving DecidableEq, Repr

/-- `OllamaCloudProvider::chat(request)` (OllamaCloudProvider.cpp lines
330-389). The backoff base multiplied into the sleep is
`config_.retry_backoff_base_ms`; the retry bound is `request.max_retries`. -/
def chat (c : OllamaCloudConfig) (transport : Transport)
    (request : LlmRequest) : RunOutcome :=
  if request.privacy_level = .LocalOnly then
    { response :=
        create_privacy_error c
          "Request is marked LocalOnly but sent to remote provider"
      attempts := 0
      sleeps := [] }
  else if !request.allow_content_upload ∧
      request.privacy_level = .FullContent then
    { response :=
        create_privacy_error c
          "Full content upload requested but not explicitly allowed"
      attempts := 0
      sleeps := [] }
  else if !is_configured c then
    { response :=
        create_config_error c
          "Ollama Cloud provider not configured: base_url or model missing"
      attempts := 0
      sleeps := [] }
  else
    let run :=
      retry_loop transport c.retry_backoff_base_ms default_http_response 0
        (request.max_retries + 1).toNat
    { response :=
        { parse_chat_response c run.1 with
          actual_privacy_level := request.privacy_level }
      attempts := run.2.1
      sleeps := run.2.2 }

/-- The fixed system prompt `OllamaCloudProvider::categorize` installs. -/
def categorize_system_prompt : String :=
  "You are a file categorization assistant. If it's an installer, describe the type of " ++
  "software it installs. Consider the filename, extension, and any directory context provided. " ++
  "Always reply with one line in the format <Main category> : <Subcategory>. Main category " ++
  "must be broad (one or two words, plural). Subcategory must be specific, relevant, and must " ++
  "not repeat the main category."

/-- `OllamaCloudProvider::categorize(...)` (OllamaCloudProvider.cpp lines
391-448): LocalOnly check, configuration check, then a categorization
prompt (path included only with consent or FullContent) delegated to
`chat`. -/
def categorize (c : OllamaCloudConfig) (transport : Transport)
    (filename filepath : String) (is_directory : Bool)
    (consistency_context : String) (base_request : LlmRequest) :
    RunOutcome :=
  if base_request.privacy_level = .LocalOnly then
    { response :=
        create_privacy_error c
          "Categorization marked LocalOnly but sent to remote provider"
      attempts := 0
      sleeps := [] }
  else if !is_configured c then
    { response :=
        create_config_error c
          "Ollama Cloud provider not configured: base_url or model missing"
      attempts := 0
      sleeps := [] }
  else
    let item_type := if is_directory then "directory" else "file"
    let prompt_base :=
      if base_request.allow_content_upload ∨
          base_request.privacy_level = .FullContent then
        "Categorize the " ++ item_type ++ " with full path: " ++ filepath ++
          "\nName: " ++ filename
      else
        "Categorize " ++ item_type ++ ": " ++ filename
    let prompt :=
      if consistency_context.isEmpty then prompt_base
      else prompt_base ++ "\n\n" ++ consistency_context
    let request :=
      { base_request with
        messages :=
          [⟨.System, categorize_system_prompt⟩, ⟨.User, prompt⟩] }
    chat c transport request

end OllamaCloudProvider

/-- The filesystem as the local provider's collaborator:
`std::filesystem::exists`, the owner-read permission bit consulted by
`check_health`, and `std::filesystem::file_size` (`none` when the size
query sets the error code). -/
structure FileSystem where
  exists_file : String → Bool
  owner_readable : String → Bool
  file_size : String → Option Nat

namespace LocalProvider

/-- `LocalProvider::id()` (LocalProvider.hpp). -/
def local_provider_id : String := "local"

/-- `LocalProvider::requires_network()` (LocalProvider.hpp). -/
def requires_network : Bool := false

/-- `LocalProvider::is_configured()` (src/app/lib/LocalProvider.cpp). -/
def is_configured (fs : FileSystem) (model_path : String) : Bool :=
  !model_path.isEmpty && fs.exists_file model_path

/-- `LocalProvider::health_check()` (src/app/lib/LocalProvider.cpp lines
26-37). -/
def health_check (fs : FileSystem) (model_path : String) : HealthStatus :=
  if model_path.isEmpty then .NotConfigured
  else if !fs.exists_file model_path then .Unavailable
  else .Healthy

/-- `LocalProvider::build_prompt(messages)` (src/app/lib/LocalProvider.cpp
lines 74-91): role-prefixed message bodies concatenated in order. -/
def build_prompt (messages : List ChatMessage) : String :=
  messages.foldl
    (fun prompt msg =>
      match msg.role with
      | .System => prompt ++ "System: " ++ msg.content ++ "\n\n"
      | .User => prompt ++ "User: " ++ msg.content ++ "\n\n"
      | .Assistant => prompt ++ "Assistant: " ++ msg.content ++ "\n\n")
    ""

/-- `LocalProvider::chat(request)` (src/app/lib/LocalProvider.cpp lines
93-135). -/
def chat (fs : FileSystem) (complete : CompleteFn) (model_path : String)
    (request : LlmRequest) : LlmResponse :=
  let base : LlmResponse :=
    { provider_id := local_provider_id
      model_used := model_path
      used_remote_inference := false
      actual_privacy_level := .LocalOnly }
  if !is_configured fs model_path then
    { base with
      success := false
      error_code := 1
      error_message :=
        "Local provider not configured: model path missing or invalid" }
  else
    match complete (build_prompt request.messages) request.max_tokens with
    | .ok result => { base with text := result, success := true }
    | .error what =>
        { base with
          success := false
          error_code := 2
          error_message := "Local inference failed: " ++ what }

/-- `LocalProvider::categorize(...)` (src/app/lib/LocalProvider.cpp lines
137-183). -/
def categorize (fs : FileSystem) (categorize_file : CategorizeFn)
    (model_path : String) (filename filepath : String) (is_directory : Bool)
    (consistency_context : String) (base_request : LlmRequest) :
    LlmResponse :=
  let base : LlmResponse :=
    { provider_id := local_provider_id
      model_used := model_path
      used_remote_inference := false
      actual_privacy_level := .LocalOnly }
  if !is_configured fs model_path then
    { base with
      success := false
      error_code := 1
      error_message :=
        "Local provider not configured: model path missing or invalid" }
  else
    let file_type := if is_directory then FileType.Directory else FileType.File
    match categorize_file filename filepath file_type consistency_context with
    | .ok result => { base with text := result, success := true }
    | .error what =>
        { base with
          success := false
          error_code := 2
          error_message := "Local categorization failed: " ++ what }

end LocalProvider

/-- `std::filesystem::path(p).filename()`: the component after the last
separator. -/
def path_filename (p : String) : String :=
  (p.splitOn "/").getLastD ""

/-- `struct ModelInfo` of the alternate provider interface
(src/unnamed/part_004), with `size_bytes` and `is_available`. -/
structure ModelInfoAlt where
  id : String := ""
  name : String := ""
  description : String := ""
  size_bytes : Nat := 0
  is_available : Bool := true
  deriving DecidableEq, Repr

namespace LocalProviderAlt

/-- `LocalProvider::check_health()` of the alternate implementation
(src/unnamed/part_002 lines 15-29): Unavailable when the model file does
not exist or lacks the owner-read permission, else Healthy. -/
def check_health (fs : FileSystem) (model_path : String) : ProviderHealth :=
  if !fs.exists_file model_path then .Unavailable
  else if !fs.owner_readable model_path then .Unavailable
  else .Healthy

/-- `LocalProvider::list_models()` of the alternate implementation
(src/unnamed/part_002 lines 31-53): one entry for the configured model if
it exists, carrying its file size (0 if the size query errors) and
`is_available = true`. -/
def list_models (fs : FileSystem) (model_path : String) :
    List ModelInfoAlt :=
  if fs.exists_file model_path then
    [{ id := model_path
       name := path_filename model_path
       description := "Local GGUF model"
       size_bytes := (fs.file_size model_path).getD 0
       is_available := true }]
  else []

end LocalProviderAlt

/-- `enum class PrivacyMode` (ProviderManager.hpp). -/
inductive PrivacyMode where
  | LocalOnly
  | RemoteAllowed
  deriving DecidableEq, Repr

/-- A registered provider as the Manager sees it through the `IProvider`
interface: its `id()`, its `requires_network()`, and its two request
operations. -/
structure Provider where
  pid : String
  requires_network : Bool
  chat : LlmRequest → LlmResponse
  categorize : String → String → Bool → String → LlmRequest → LlmResponse

/-- Lookup in the Manager's `providers_` map, modelled as an association
list (`std::unordered_map::find`). -/
def lookupP : List (String × Provider) → String → Option Provider
  | [], _ => none
  | (k', v') :: rest, k => if k' = k then some v' else lookupP rest k

/-- Insert-or-replace in the `providers_` map
(`providers_[provider_id] = provider`). -/
def insertP : List (String × Provider) → String → Provider →
    List (String × Provider)
  | [], k, v => [(k, v)]
  | (k', v') :: rest, k, v =>
      if k' = k then (k, v) :: rest else (k', v') :: insertP rest k v

/-- Erase from the `providers_` map (`providers_.erase(it)`). -/
def removeP (l : List (String × Provider)) (k : String) :
    List (String × Provider) :=
  l.filter (fun kv => kv.1 ≠ k)

namespace ProviderManager

/-- The Manager's state (src/unnamed/part_002 / ProviderManager.hpp):
registry, active provider identity (empty = none), privacy mode. -/
structure State where
  providers : List (String × Provider) := []
  active_provider_id : String := ""
  privacy_mode : PrivacyMode := .LocalOnly

/-- `ProviderManager::ProviderManager()`: empty registry, no active
provider, LocalOnly mode. -/
def construct : State := {}

/-- `ProviderManager::register_provider(provider)` (src/unnamed/part_002
lines 88-100): no-op on a null pointer, else insert/replace under the
provider's `id()`. -/
def register_provider (m : State) (provider : Option Provider) : State :=
  match provider with
  | none => m
  | some p => { m with providers := insertP m.providers p.pid p }

/-- `ProviderManager::unregister_provider(provider_id)`
(src/unnamed/part_002 lines 102-116): erase; clear the active identity if
it was the removed one. -/
def unregister_provider (m : State) (provider_id : String) : State :=
  if (lookupP m.providers provider_id).isSome then
    { m with
      providers := removeP m.providers provider_id
      active_provider_id :=
        if m.active_provider_id = provider_id then ""
        else m.active_provider_id }
  else m

/-- `ProviderManager::get_provider(provider_id)`. -/
def get_provider (m : State) (provider_id : String) : Option Provider :=
  lookupP m.providers provider_id

/-- `ProviderManager::active_provider()`. -/
def active_provider (m : State) : Option Provider :=
  get_provider m m.active_provider_id

/-- `ProviderManager::is_provider_allowed(provider)`
(src/unnamed/part_002 lines 152-161): local always; remote only under
RemoteAllowed. -/
def is_provider_allowed (m : State) (p : Provider) : Bool :=
  if !p.requires_network then true
  else m.privacy_mode = .RemoteAllowed

/-- `ProviderManager::allowed_providers()`. -/
def allowed_providers (m : State) : List Provider :=
  (m.providers.filter (fun kv => is_provider_allowed m kv.2)).map (·.2)

/-- `ProviderManager::set_active_provider(provider_id)`
(src/unnamed/part_002 lines 163-191). Returns the C++ `bool` and the
updated state. -/
def set_active_provider (m : State) (provider_id : String) : Bool × State :=
  match get_provider m provider_id with
  | none => (false, m)
  | some p =>
      if !is_provider_allowed m p then (false, m)
      else (true, { m with active_provider_id := provider_id })

/-- `ProviderManager::set_privacy_mode(mode, user_confirmed)`
(src/unnamed/part_002 lines 198-230). Returns the C++ `bool` and the
updated state: RemoteAllowed without confirmation fails, switching to
LocalOnly deactivates a network-requiring active provider. -/
def set_privacy_mode (m : State) (mode : PrivacyMode)
    (user_confirmed : Bool) : Bool × State :=
  if mode = .RemoteAllowed ∧ !user_confirmed then (false, m)
  else
    let m' := { m with privacy_mode := mode }
    let m'' :=
      if mode = .LocalOnly ∧ !m'.active_provider_id.isEmpty then
        match lookupP m'.providers m'.active_provider_id with
        | some p =>
            if p.requires_network then
              { m' with active_provider_id := "" }
            else m'
        | none => m'
      else m'
    (true, m'')

/-- `ProviderManager::create_no_provider_error()`. -/
def create_no_provider_error : LlmResponse :=
  { success := false
    error_code := 1
    error_message := "No active provider configured" }

/-- `ProviderManager::create_privacy_blocked_error(provider_id)`. -/
def create_privacy_blocked_error (provider_id : String) : LlmResponse :=
  { provider_id := provider_id
    success := false
    error_code := 403
    error_message :=
      "Request blocked: provider '" ++ provider_id ++
        "' requires network but privacy mode is LocalOnly. " ++
        "Enable remote providers in settings if you want to use this provider." }

/-- `ProviderManager::validate_request(request)` (src/unnamed/part_002
lines 253-271). -/
def validate_request (m : State) (request : LlmRequest) : Option String :=
  match active_provider m with
  | none => some "No active provider configured"
  | some p =>
      if p.requires_network then
        if m.privacy_mode = .LocalOnly then
          some "Active provider requires network but privacy mode is LocalOnly"
        else if request.privacy_level = .LocalOnly then
          some "Request is marked LocalOnly but active provider requires network"
        else none
      else none

/-- `ProviderManager::chat(request)` (src/unnamed/part_002 lines 273-300).
The Bool records whether the call was forwarded to the active provider. -/
def chat (m : State) (request : LlmRequest) : LlmResponse × Bool :=
  match active_provider m with
  | none => (create_no_provider_error, false)
  | some p =>
      if !is_provider_allowed m p then
        (create_privacy_blocked_error p.pid, false)
      else if p.requires_network ∧ request.privacy_level = .LocalOnly then
        ({ provider_id := p.pid
           success := false
           error_code := 403
           error_message :=
             "Request marked as LocalOnly cannot be sent to remote provider" },
          false)
      else (p.chat request, true)

/-- `ProviderManager::categorize(...)` (src/unnamed/part_002 lines
302-335). The Bool records whether the call was forwarded. -/
def categorize (m : State) (filename filepath : String)
    (is_directory : Bool) (consistency_context : String)
    (base_request : LlmRequest) : LlmResponse × Bool :=
  match active_provider m with
  | none => (create_no_provider_error, false)
  | some p =>
      if !is_provider_allowed m p then
        (create_privacy_blocked_error p.pid, false)
      else if p.requires_network ∧
          base_request.privacy_level = .LocalOnly then
        ({ provider_id := p.pid
           success := false
           error_code := 403
           error_message :=
             "Categorization request marked as LocalOnly cannot be sent to remote provider" },
          false)
      else
        (p.categorize filename filepath is_directory consistency_context
          base_request, true)

end ProviderManager

namespace ProviderManager

/-- One call in the Manager's mutating interface, for stating properties of
every reachable state. -/
inductive MgrOp where
  | reg (provider : Option Provider)
  | unreg (provider_id : String)
  | setActive (provider_id : String)
  | setMode (mode : PrivacyMode) (user_confirmed : Bool)

/-- Apply one call, discarding the returned `bool`. -/
def applyOp (m : State) : MgrOp → State
  | .reg provider => register_provider m provider
  | .unreg provider_id => unregister_provider m provider_id
  | .setActive provider_id => (set_active_provider m provider_id).2
  | .setMode mode confirmed => (set_privacy_mode m mode confirmed).2

/-- Run a sequence of calls from a state. -/
def runOps (m : State) (ops : List MgrOp) : State :=
  ops.foldl applyOp m

/-- Well-formedness of one call with respect to a fixed assignment `netOf`
of network requirement to provider identity: every provider handed to
`register_provider` has a non-empty `id()` and its `requires_network()`
agrees with `netOf` at that id. (Each concrete `IProvider` variant has a
fixed non-empty id and a fixed network requirement, so any family of
registered providers drawn from the shipped variants satisfies this.) -/
def MgrOp.RegOK (netOf : String → Bool) : MgrOp → Prop
  | .reg (some p) => p.pid ≠ "" ∧ p.requires_network = netOf p.pid
  | _ => True

/-- Registry entries have non-empty identities agreeing with `netOf`. -/
def Consistent (netOf : String → Bool) (m : State) : Prop :=
  ∀ kv ∈ m.providers, kv.1 ≠ "" ∧ kv.2.requires_network = netOf kv.1

/-- A non-empty active identity always denotes a registered provider. -/
def ActivePresent (m : State) : Prop :=
  m.active_provider_id ≠ "" → (lookupP m.providers m.active_provider_id).isSome

/-- The privacy invariant: under LocalOnly mode the active provider, when
present, does not require network. -/
def LocalSafe (m : State) : Prop :=
  m.privacy_mode = .LocalOnly →
    ∀ q, active_provider m = some q → q.requires_network = false

/-- The inductive invariant carried through every Manager call. -/
def Inv (netOf : String → Bool) (m : State) : Prop :=
  Consistent netOf m ∧ ActivePresent m ∧ LocalSafe m

end ProviderManager

/-- The blocked-response shape the privacy claims assert:
`success == false`, `error_code == 403`, `used_remote_inference == false`. -/
def PrivacyBlocked403 (r : LlmResponse) : Prop :=
  r.success = false ∧ r.error_code = 403 ∧ r.used_remote_inference = false

/-- Spec-side description for the commercial provider's prompt: the
in-order concatenation of the contents of the User-role messages only. -/
def user_concat : List ChatMessage → String
  | [] => ""
  | msg :: rest =>
      (if msg.role = .User then msg.content else "") ++ user_concat rest

namespace Fixtures

/-- A local (non-network) provider with identity `"dup"`. -/
def localDup : Provider :=
  { pid := "dup"
    requires_network := false
    chat := fun _ => {}
    categorize := fun _ _ _ _ _ => {} }

/-- A network-requiring provider with the same identity `"dup"`. -/
def remoteDup : Provider :=
  { pid := "dup"
    requires_network := true
    chat := fun _ => {}
    categorize := fun _ _ _ _ _ => {} }

/-- A network-requiring provider with identity `"openai"`. -/
def remoteOpenai : Provider :=
  { pid := "openai"
    requires_network := true
    chat := fun _ => {}
    categorize := fun _ _ _ _ _ => {} }

/-- A local provider with identity `"local1"`. -/
def localOne : Provider :=
  { pid := "local1"
    requires_network := false
    chat := fun _ => {}
    categorize := fun _ _ _ _ _ => {} }

/-- Manager state reached by: register `localDup`; activate `"dup"` (a
local provider, allowed under the default LocalOnly mode); register
`remoteDup`, which replaces the registry entry under `"dup"` while the
identity stays active. -/
def managerAfterReplace : ProviderManager.State :=
  ProviderManager.runOps ProviderManager.construct
    [.reg (some localDup), .setActive "dup", .reg (some remoteDup)]

/-- A Manager state with the network-requiring `remoteOpenai` active under
RemoteAllowed mode. -/
def managerRemoteActive : ProviderManager.State :=
  { providers := [("openai", remoteOpenai)]
    active_provider_id := "openai"
    privacy_mode := .RemoteAllowed }

/-- A configured OpenAI provider. -/
def openaiConfigured : OpenAIProvider.State :=
  OpenAIProvider.construct "test-api-key" "gpt-4o-mini"

/-- A `complete_prompt` client that returns successfully. -/
def completeOk : CompleteFn := fun _ _ => .ok "Test response"

/-- A `categorize_file` client that returns successfully. -/
def categorizeOk : CategorizeFn := fun _ _ _ _ => .ok "Documents : Reports"

/-- A configured Ollama Cloud config (defaults elsewhere, in particular
`retry_backoff_base_ms = 1000`). -/
def cfgOllama : OllamaCloudProvider.OllamaCloudConfig :=
  { base_url := "https://example.com", model := "llama3.2" }

/-- An Ollama Cloud config with a base URL but no model id: not
configured. -/
def cfgOllamaNoModel : OllamaCloudProvider.OllamaCloudConfig :=
  { base_url := "https://example.com" }

/-- A request marked LocalOnly. -/
def reqLocalOnly : LlmRequest := { privacy_level := .LocalOnly }

/-- A FullContent request without the explicit consent flag. -/
def reqFullNoConsent : LlmRequest :=
  { privacy_level := .FullContent, allow_content_upload := false }

/-- A MetadataOnly request (the defaults: `max_retries = 3`). -/
def reqMeta : LlmRequest := {}

/-- A MetadataOnly request with `max_retries = 1` and a request-level
backoff base of 7 ms, distinct from the config's 1000 ms. -/
def reqBackoff7 : LlmRequest := { max_retries := 1, retry_backoff_base_ms := 7 }

/-- A transport that always answers HTTP 500. -/
def transport500 : OllamaCloudProvider.Transport :=
  fun _ => { status_code := 500, error := "Internal Server Error" }

/-- A transport that always answers HTTP 404. -/
def transport404 : OllamaCloudProvider.Transport :=
  fun _ => { status_code := 404, error := "Not Found" }

/-- A transport answering 200 with an Ollama-style chat body. -/
def transport200 : OllamaCloudProvider.Transport :=
  fun _ =>
    { status_code := 200
      body :=
        some (.jobj
          [("message", .jobj [("content", .jstr "Documents : Invoices")])]) }

/-- A `make_request` collaborator answering HTTP 200 to everything. -/
def makeReq200 : OllamaCloudProvider.MakeRequest :=
  fun _ _ _ _ => { status_code := 200 }

/-- A filesystem holding one readable 7-byte file `/models/test.gguf`. -/
def fsOneModel : FileSystem :=
  { exists_file := fun p => p = "/models/test.gguf"
    owner_readable := fun _ => true
    file_size := fun p => if p = "/models/test.gguf" then some 7 else none }

end Fixtures

/-! ## Association-list lemmas for the Manager registry -/

theorem lookupP_mem {k : String} {v : Provider} :
    ∀ {l : List (String × Provider)}, lookupP l k = some v → (k, v) ∈ l := by
  intro l
  induction l with
  | nil => intro h; simp [lookupP] at h
  | cons kv rest ih =>
      obtain ⟨k', v'⟩ := kv
      intro h
      rw [lookupP] at h
      by_cases hk : k' = k
      · rw [if_pos hk] at h
        injection h with h2
        subst hk
        subst h2
        exact List.mem_cons_self _ _
      · rw [if_neg hk] at h
        exact List.mem_cons_of_mem _ (ih h)

theorem lookupP_none_of_no_key {k : String} :
    ∀ {l : List (String × Provider)}, (∀ kv ∈ l, kv.1 ≠ k) →
      lookupP l k = none := by
  intro l
  induction l with
  | nil => intro _; rfl
  | cons kv rest ih =>
      obtain ⟨k', v'⟩ := kv
      intro h
      rw [lookupP]
      rw [if_neg (h (k', v') (List.mem_cons_self _ _))]
      exact ih fun kv hkv => h kv (List.mem_cons_of_mem _ hkv)

theorem mem_insertP {k : String} {v : Provider} {kv' : String × Provider} :
    ∀ {l : List (String × Provider)}, kv' ∈ insertP l k v →
      kv' = (k, v) ∨ kv' ∈ l := by
  intro l
  induction l with
  | nil =>
      intro h
      rw [insertP] at h
      rcases List.mem_singleton.mp h with h'
      exact Or.inl h'
  | cons kv rest ih =>
      obtain ⟨k', v''⟩ := kv
      intro h
      rw [insertP] at h
      by_cases hk : k' = k
      · rw [if_pos hk] at h
        rcases List.mem_cons.mp h with h' | h'
        · exact Or.inl h'
        · exact Or.inr (List.mem_cons_of_mem _ h')
      · rw [if_neg hk] at h
        rcases List.mem_cons.mp h with h' | h'
        · exact Or.inr (h' ▸ List.mem_cons_self _ _)
        · rcases ih h' with h'' | h''
          · exact Or.inl h''
          · exact Or.inr (List.mem_cons_of_mem _ h'')

theorem lookupP_insertP_self {k : String} {v : Provider} :
    ∀ (l : List (String × Provider)), lookupP (insertP l k v) k = some v := by
  intro l
  induction l with
  | nil => simp [insertP, lookupP]
  | cons kv rest ih =>
      obtain ⟨k', v'⟩ := kv
      rw [insertP]
      by_cases hk : k' = k
      · rw [if_pos hk, lookupP, if_pos rfl]
      · rw [if_neg hk, lookupP, if_neg hk]
        exact ih

theorem lookupP_insertP_ne {k k' : String} {v : Provider} (hne : k' ≠ k) :
    ∀ (l : List (String × Provider)),
      lookupP (insertP l k v) k' = lookupP l k' := by
  intro l
  induction l with
  | nil =>
      rw [insertP, lookupP, lookupP]
      rw [if_neg fun h => hne h.symm]
      rfl
  | cons kv rest ih =>
      obtain ⟨k'', v''⟩ := kv
      rw [insertP]
      by_cases hk : k'' = k
      · rw [if_pos hk, lookupP, lookupP, if_neg fun h => hne h.symm, hk]
        rw [if_neg fun h => hne h.symm]
      · rw [if_neg hk, lookupP, lookupP]
        by_cases hk' : k'' = k'
        · rw [if_pos hk', if_pos hk']
        · rw [if_neg hk', if_neg hk']
          exact ih

theorem mem_removeP {k : String} {kv : String × Provider}
    {l : List (String × Provider)} (h : kv ∈ removeP l k) : kv ∈ l :=
  List.mem_of_mem_filter h

theorem lookupP_removeP_ne {k k' : String} (hne : k' ≠ k) :
    ∀ (l : List (String × Provider)),
      lookupP (removeP l k) k' = lookupP l k' := by
  intro l
  induction l with
  | nil => rfl
  | cons kv rest ih =>
      obtain ⟨k'', v''⟩ := kv
      rw [removeP, List.filter]
      by_cases hk : k'' = k
      · have : (decide (k'' ≠ k)) = false := by simp [hk]
        rw [this]
        have hne' : k'' ≠ k' := fun h => hne (h ▸ hk)
        rw [lookupP, if_neg hne']
        exact ih
      · have : (decide (k'' ≠ k)) = true := by simp [hk]
        rw [this, lookupP, lookupP]
        by_cases hk' : k'' = k'
        · rw [if_pos hk', if_pos hk']
        · rw [if_neg hk', if_neg hk']
          exact ih

/-! ## Retry-loop lemmas -/

namespace OllamaCloudProvider

theorem retry_loop_attempts_of_retryable (transport : Transport) (b : Int)
    (hret : ∀ n, ¬((transport n).success = true ∨
      (400 ≤ (transport n).status_code ∧ (transport n).status_code < 500))) :
    ∀ (fuel rc : Nat) (last : HttpResponse),
      (retry_loop transport b last rc fuel).2.1 = fuel := by
  intro fuel
  induction fuel with
  | zero => intro rc last; rfl
  | succ f ih =>
      intro rc last
      simp only [retry_loop]
      rw [if_neg (hret rc)]
      simpa using ih (rc + 1) (transport rc)

theorem retry_loop_final_of_retryable (transport : Transport) (b : Int)
    (hret : ∀ n, ¬((transport n).success = true ∨
      (400 ≤ (transport n).status_code ∧ (transport n).status_code < 500))) :
    ∀ (fuel rc : Nat) (last : HttpResponse), 0 < fuel →
      (retry_loop transport b last rc fuel).1 = transport (rc + fuel - 1) := by
  intro fuel
  induction fuel with
  | zero => intro rc last h; exact absurd h (by simp)
  | succ f ih =>
      intro rc last _
      simp only [retry_loop]
      rw [if_neg (hret rc)]
      cases f with
      | zero => simp [retry_loop]
      | succ f' =>
          have := ih (rc + 1) (transport rc) (Nat.succ_pos f')
          simp only [this]
          congr 1
          omega

theorem retry_loop_stop_first (transport : Transport) (b : Int) (f : Nat)
    (last : HttpResponse) (rc : Nat)
    (hstop : (transport rc).success = true ∨
      (400 ≤ (transport rc).status_code ∧ (transport rc).status_code < 500)) :
    (retry_loop transport b last rc (f + 1)).2.1 = 1 ∧
    (retry_loop transport b last rc (f + 1)).1 = transport rc := by
  simp only [retry_loop]
  rw [if_pos hstop]
  exact ⟨rfl, rfl⟩

theorem retry_loop_sleeps_pos (transport : Transport) (b : Int) :
    ∀ (fuel rc : Nat) (last : HttpResponse), 0 < rc →
      (retry_loop transport b last rc fuel).2.2 =
        (List.range (retry_loop transport b last rc fuel).2.1).map
          (fun i => b * 2 ^ (rc - 1 + i)) := by
  intro fuel
  induction fuel with
  | zero => intro rc last _; rfl
  | succ f ih =>
      intro rc last hrc
      simp only [retry_loop]
      by_cases hstop : (transport rc).success = true ∨
        (400 ≤ (transport rc).status_code ∧ (transport rc).status_code < 500)
      · rw [if_pos hstop]
        simp [hrc, List.range_succ]
      · rw [if_neg hstop]
        have hrest := ih (rc + 1) (transport rc) (Nat.succ_pos rc)
        simp only [Nat.add_sub_cancel] at hrest
        simp only [hrest, if_pos hrc]
        rw [List.range_succ_eq_map]
        simp only [List.map_cons, List.map_map, List.singleton_append,
          Nat.add_zero]
        refine congrArg₂ List.cons rfl ?_
        apply List.map_congr_left
        intro i _
        simp only [Function.comp_apply]
        have hexp : rc - 1 + Nat.succ i = rc + i := by omega
        rw [hexp]

theorem retry_loop_sleeps_zero (transport : Transport) (b : Int) :
    ∀ (fuel : Nat) (last : HttpResponse),
      (retry_loop transport b last 0 fuel).2.2 =
        (List.range ((retry_loop transport b last 0 fuel).2.1 - 1)).map
          (fun i => b * 2 ^ i) := by
  intro fuel
  cases fuel with
  | zero => intro last; rfl
  | succ f =>
      intro last
      simp only [retry_loop]
      by_cases hstop : (transport 0).success = true ∨
        (400 ≤ (transport 0).status_code ∧ (transport 0).status_code < 500)
      · rw [if_pos hstop]
        simp
      · rw [if_neg hstop]
        have hrest := retry_loop_sleeps_pos transport b f 1 (transport 0)
          Nat.one_pos
        simp at hrest
        simp [hrest]

end OllamaCloudProvider

theorem OllamaCloudProvider.parse_chat_response_failure
    (c : OllamaCloudProvider.OllamaCloudConfig)
    (hr : OllamaCloudProvider.HttpResponse) (h : hr.success = false) :
    (OllamaCloudProvider.parse_chat_response c hr).success = false := by
  simp [OllamaCloudProvider.parse_chat_response, h]

theorem OllamaCloudProvider.chat_run_of_checks
    (c : OllamaCloudProvider.OllamaCloudConfig)
    (transport : OllamaCloudProvider.Transport) (request : LlmRequest)
    (h1 : request.privacy_level ≠ .LocalOnly)
    (h2 : ¬(request.allow_content_upload = false ∧
      request.privacy_level = .FullContent))
    (h3 : OllamaCloudProvider.is_configured c = true) :
    OllamaCloudProvider.chat c transport request =
      { response :=
          { OllamaCloudProvider.parse_chat_response c
              (OllamaCloudProvider.retry_loop transport c.retry_backoff_base_ms
                OllamaCloudProvider.default_http_response 0
                (request.max_retries + 1).toNat).1 with
            actual_privacy_level := request.privacy_level }
        attempts :=
          (OllamaCloudProvider.retry_loop transport c.retry_backoff_base_ms
            OllamaCloudProvider.default_http_response 0
            (request.max_retries + 1).toNat).2.1
        sleeps :=
          (OllamaCloudProvider.retry_loop transport c.retry_backoff_base_ms
            OllamaCloudProvider.default_http_response 0
            (request.max_retries + 1).toNat).2.2 } := by
  have h2' : ¬((!request.allow_content_upload) = true ∧
      request.privacy_level = .FullContent) := by
    simpa [Bool.not_eq_true'] using h2
  have h3' : ¬((!OllamaCloudProvider.is_configured c) = true) := by simp [h3]
  simp only [OllamaCloudProvider.chat]
  rw [if_neg h1, if_neg h2', if_neg h3']

theorem combined_prompt_eq_user_concat :
    ∀ messages : List ChatMessage,
      OpenAIProvider.combined_prompt messages = user_concat messages := by
  have hgen : ∀ (messages : List ChatMessage) (acc : String),
      messages.foldl
        (fun acc msg => if msg.role = .User then acc ++ msg.content else acc)
        acc = acc ++ user_concat messages := by
    intro messages
    induction messages with
    | nil =>
        intro acc
        rw [List.foldl_nil, user_concat, String.append_empty]
    | cons msg rest ih =>
        intro acc
        simp only [List.foldl_cons, user_concat, ih]
        by_cases h : msg.role = .User
        · rw [if_pos h, if_pos h, String.append_assoc]
        · rw [if_neg h, if_neg h, String.empty_append]
  intro messages
  rw [OpenAIProvider.combined_prompt, hgen, String.empty_append]

/-! ## Claim theorems -/

/-- C4: a freshly constructed Manager has `privacy_mode() == LocalOnly`;
`set_privacy_mode(RemoteAllowed, false)` returns false and leaves the whole
state (in particular the mode) unchanged; `set_privacy_mode(RemoteAllowed,
true)` returns true and sets the mode to RemoteAllowed. -/
theorem manager_default_mode_and_confirmation :
    ProviderManager.construct.privacy_mode = .LocalOnly ∧
    ProviderManager.set_privacy_mode ProviderManager.construct .RemoteAllowed
      false = (false, ProviderManager.construct) ∧
    (ProviderManager.set_privacy_mode ProviderManager.construct .RemoteAllowed
      true).1 = true ∧
    (ProviderManager.set_privacy_mode ProviderManager.construct .RemoteAllowed
      true).2.privacy_mode = .RemoteAllowed := by
  refine ⟨rfl, ?_, ?_, ?_⟩ <;> rfl

/-- C10: every response of the local provider's chat and categorize — on
success, configuration failure, or engine failure, for every request — has
`used_remote_inference == false` and `actual_privacy_level == LocalOnly`. -/
theorem local_responses_never_remote (fs : FileSystem) (complete : CompleteFn)
    (categorize_file : CategorizeFn) (model_path filename filepath : String)
    (is_directory : Bool) (consistency_context : String)
    (request base_request : LlmRequest) :
    ((LocalProvider.chat fs complete model_path request).used_remote_inference
        = false ∧
      (LocalProvider.chat fs complete model_path request).actual_privacy_level
        = .LocalOnly) ∧
    ((LocalProvider.categorize fs categorize_file model_path filename filepath
        is_directory consistency_context base_request).used_remote_inference
        = false ∧
      (LocalProvider.categorize fs categorize_file model_path filename
        filepath is_directory consistency_context
        base_request).actual_privacy_level = .LocalOnly) := by
  constructor
  · unfold LocalProvider.chat
    dsimp only
    split
    · exact ⟨rfl, rfl⟩
    · split <;> exact ⟨rfl, rfl⟩
  · unfold LocalProvider.categorize
    dsimp only
    split
    · exact ⟨rfl, rfl⟩
    · split <;> exact ⟨rfl, rfl⟩

/-- C8: the local provider's health check is Unavailable on a non-existent
model path; on an existing readable file of size `n` it is Healthy and
`list_models` returns exactly one entry whose `size_bytes` is `n` and whose
`is_available` flag is true. -/
theorem local_health_and_model_listing (fs : FileSystem)
    (model_path : String) (n : Nat) :
    (fs.exists_file model_path = false →
      LocalProviderAlt.check_health fs model_path = .Unavailable) ∧
    (fs.exists_file model_path = true →
      fs.owner_readable model_path = true →
      fs.file_size model_path = some n →
      LocalProviderAlt.check_health fs model_path = .Healthy ∧
      LocalProviderAlt.list_models fs model_path =
        [{ id := model_path
           name := path_filename model_path
           description := "Local GGUF model"
           size_bytes := n
           is_available := true }]) := by
  constructor
  · intro h
    unfold LocalProviderAlt.check_health
    simp [h]
  · intro h1 h2 h3
    constructor
    · unfold LocalProviderAlt.check_health
      simp [h1, h2]
    · unfold LocalProviderAlt.list_models
      simp [h1, h3]

/-- C8 witness: on the one-model filesystem fixture, the missing path is
Unavailable and the present 7-byte model is Healthy with the single listed
entry. -/
theorem local_health_and_model_listing_witness :
    LocalProviderAlt.check_health Fixtures.fsOneModel "/missing/model.gguf"
      = .Unavailable ∧
    LocalProviderAlt.check_health Fixtures.fsOneModel "/models/test.gguf"
      = .Healthy ∧
    LocalProviderAlt.list_models Fixtures.fsOneModel "/models/test.gguf" =
      [{ id := "/models/test.gguf"
         name := path_filename "/models/test.gguf"
         description := "Local GGUF model"
         size_bytes := 7
         is_available := true }] := by
  have hmiss :=
    (local_health_and_model_listing Fixtures.fsOneModel "/missing/model.gguf"
      0).1 (by decide)
  have hhit :=
    (local_health_and_model_listing Fixtures.fsOneModel "/models/test.gguf"
      7).2 (by decide) (by decide) (by decide)
  exact ⟨hmiss, hhit.1, hhit.2⟩

/-- C7 (amended): the self-hosted remote provider's health_check returns
NotConfigured when the base URL is absent — the model id is not consulted —
and otherwise classifies by the `/api/version` call with its 5000 ms
timeout: Unavailable on a non-2xx or failed response, Healthy on 2xx. -/
theorem ollama_health_check_behavior
    (c : OllamaCloudProvider.OllamaCloudConfig)
    (make_req : OllamaCloudProvider.MakeRequest) :
    (c.base_url.isEmpty = true →
      OllamaCloudProvider.health_check c make_req = .NotConfigured) ∧
    (c.base_url.isEmpty = false →
      ((make_req "/api/version" "GET" "" 5000).success = false →
        OllamaCloudProvider.health_check c make_req = .Unavailable) ∧
      ((make_req "/api/version" "GET" "" 5000).success = true →
        OllamaCloudProvider.health_check c make_req = .Healthy)) := by
  unfold OllamaCloudProvider.health_check
  exact ⟨fun h => by simp [h],
    fun h => ⟨fun hr => by simp [h, hr], fun hr => by simp [h, hr]⟩⟩

/-- C7 witness: an unset base URL yields NotConfigured; the configured
fixture with a 200-answering transport yields Healthy. -/
theorem ollama_health_check_behavior_witness :
    OllamaCloudProvider.health_check {} Fixtures.makeReq200 = .NotConfigured ∧
    OllamaCloudProvider.health_check Fixtures.cfgOllama Fixtures.makeReq200
      = .Healthy := by
  refine ⟨(ollama_health_check_behavior {} Fixtures.makeReq200).1 (by decide),
    ((ollama_health_check_behavior Fixtures.cfgOllama Fixtures.makeReq200).2
      (by decide)).2 (by decide)⟩

/-- C7 counterexample: with a base URL present but the model id empty the
provider's required configuration is absent (`is_configured` is false), yet
health_check returns Healthy rather than the NotConfigured the claim
requires. -/
theorem ollama_health_check_counterexample :
    OllamaCloudProvider.is_configured Fixtures.cfgOllamaNoModel = false ∧
    OllamaCloudProvider.health_check Fixtures.cfgOllamaNoModel
      Fixtures.makeReq200 = .Healthy ∧
    HealthStatus.Healthy ≠ HealthStatus.NotConfigured := by
  refine ⟨by decide, by decide, by decide⟩

/-- C2 (code evaluated at the failing input): the commercial provider's
categorize, given a configured provider and a FullContent request without
`allow_content_upload`, invokes the underlying client — passing the full
filepath — and returns its result with `success == true` and
`error_code == 0`, instead of the blocked `403` response the claim
requires. -/
theorem openai_categorize_fullcontent_without_consent_not_blocked :
    (OpenAIProvider.categorize Fixtures.openaiConfigured Fixtures.categorizeOk
      "report.pdf" "/home/user/report.pdf" false ""
      Fixtures.reqFullNoConsent).client_call =
      some ("report.pdf", "/home/user/report.pdf", FileType.File, "") ∧
    (OpenAIProvider.categorize Fixtures.openaiConfigured Fixtures.categorizeOk
      "report.pdf" "/home/user/report.pdf" false ""
      Fixtures.reqFullNoConsent).response.success = true ∧
    (OpenAIProvider.categorize Fixtures.openaiConfigured Fixtures.categorizeOk
      "report.pdf" "/home/user/report.pdf" false ""
      Fixtures.reqFullNoConsent).response.error_code = 0 ∧
    (0 : Int) ≠ 403 := by
  refine ⟨by decide, by decide, by decide, by decide⟩

/-- C9: whenever the commercial provider's privacy and configuration checks
pass, the prompt handed to the underlying client is exactly the in-order
concatenation of the User-role message contents (`user_concat`); System-
and Assistant-role contents never reach the client. -/
theorem openai_chat_prompt_user_messages_only (p : OpenAIProvider.State)
    (complete : CompleteFn) (request : LlmRequest)
    (h1 : request.privacy_level ≠ .LocalOnly)
    (h2 : ¬(request.allow_content_upload = false ∧
      request.privacy_level = .FullContent))
    (h3 : OpenAIProvider.is_configured p = true) :
    (OpenAIProvider.chat p complete request).client_call =
      some (user_concat request.messages, request.max_tokens) := by
  have h2' : ¬((!request.allow_content_upload) = true ∧
      request.privacy_level = .FullContent) := by
    simpa [Bool.not_eq_true'] using h2
  have h3' : ¬((!OpenAIProvider.is_configured p) = true) := by simp [h3]
  unfold OpenAIProvider.chat
  rw [if_neg h1, if_neg h2', if_neg h3']
  dsimp only
  rw [combined_prompt_eq_user_concat]
  cases hc : complete (user_concat request.messages) request.max_tokens with
  | ok r => simp [hc]
  | error e => simp [hc]

/-- C9 witness: a four-message conversation through a configured provider
produces the client call carrying only the two User contents, in order. -/
theorem openai_chat_prompt_user_messages_only_witness :
    (OpenAIProvider.chat Fixtures.openaiConfigured Fixtures.completeOk
      { messages :=
          [⟨.System, "sys"⟩, ⟨.User, "hello "⟩, ⟨.Assistant, "mid"⟩,
            ⟨.User, "world"⟩] }).client_call = some ("hello world", 256) := by
  have h := openai_chat_prompt_user_messages_only Fixtures.openaiConfigured
    Fixtures.completeOk
    { messages :=
        [⟨.System, "sys"⟩, ⟨.User, "hello "⟩, ⟨.Assistant, "mid"⟩,
          ⟨.User, "world"⟩] }
    (by decide) (by decide) (by decide)
  rw [h]
  rfl

/-- C6 (amended): in the self-hosted provider's retry loop the sleep before
retry attempt `k` (the `k`-th entry of the sleeps list, `k ≥ 1`) is the
PROVIDER CONFIGURATION'S `retry_backoff_base_ms` times `2^(k-1)`; the
request's `retry_backoff_base_ms` field is never consulted. -/
theorem ollama_backoff_uses_config_base
    (c : OllamaCloudProvider.OllamaCloudConfig)
    (transport : OllamaCloudProvider.Transport) (request : LlmRequest)
    (h1 : request.privacy_level ≠ .LocalOnly)
    (h2 : ¬(request.allow_content_upload = false ∧
      request.privacy_level = .FullContent))
    (h3 : OllamaCloudProvider.is_configured c = true) :
    (OllamaCloudProvider.chat c transport request).sleeps =
      (List.range
        ((OllamaCloudProvider.chat c transport request).attempts - 1)).map
        (fun k => c.retry_backoff_base_ms * 2 ^ k) := by
  rw [OllamaCloudProvider.chat_run_of_checks c transport request h1 h2 h3]
  exact OllamaCloudProvider.retry_loop_sleeps_zero transport
    c.retry_backoff_base_ms _ _

/-- C6 witness: config base 1000 ms, request base 7 ms, one retry — the
single sleep is 1000 ms, matching the config-base formula. -/
theorem ollama_backoff_uses_config_base_witness :
    (OllamaCloudProvider.chat Fixtures.cfgOllama Fixtures.transport500
      Fixtures.reqBackoff7).sleeps =
      (List.range 1).map (fun k => (1000 : Int) * 2 ^ k) := by
  have h := ollama_backoff_uses_config_base Fixtures.cfgOllama
    Fixtures.transport500 Fixtures.reqBackoff7 (by decide) (by decide)
    (by decide)
  rw [h]
  rfl

/-- C6 counterexample: in the same run the sleeps list is `[1000]`, while
the claim's request-carried base (7 ms) predicts `[7]`: the request's
backoff base is not what the loop uses. -/
theorem ollama_backoff_ignores_request_base :
    (OllamaCloudProvider.chat Fixtures.cfgOllama Fixtures.transport500
      Fixtures.reqBackoff7).sleeps = [(1000 : Int)] ∧
    Fixtures.reqBackoff7.retry_backoff_base_ms * 2 ^ (0 : Nat) = 7 ∧
    ((1000 : Int) ≠ 7) := by
  refine ⟨by decide, by decide, by decide⟩

/-- C5: with privacy and configuration checks passing and
`max_retries = N`, a transport answering only 500-class statuses is
attempted exactly `N + 1` times and the final response is a failure, while
a first answer that is 2xx or in `[400, 500)` stops the loop after exactly
one attempt. -/
theorem ollama_chat_retry_attempts (c : OllamaCloudProvider.OllamaCloudConfig)
    (transport : OllamaCloudProvider.Transport) (request : LlmRequest)
    (N : Nat)
    (h1 : request.privacy_level ≠ .LocalOnly)
    (h2 : ¬(request.allow_content_upload = false ∧
      request.privacy_level = .FullContent))
    (h3 : OllamaCloudProvider.is_configured c = true)
    (hN : request.max_retries = (N : Int)) :
    ((∀ n, 500 ≤ (transport n).status_code ∧ (transport n).status_code < 600) →
      (OllamaCloudProvider.chat c transport request).attempts = N + 1 ∧
      (OllamaCloudProvider.chat c transport request).response.success
        = false) ∧
    ((transport 0).success = true ∨
        (400 ≤ (transport 0).status_code ∧ (transport 0).status_code < 500) →
      (OllamaCloudProvider.chat c transport request).attempts = 1) := by
  have hchat := OllamaCloudProvider.chat_run_of_checks c transport request
    h1 h2 h3
  have hfuel : (request.max_retries + 1).toNat = N + 1 := by
    rw [hN]; omega
  constructor
  · intro h500
    have hret : ∀ n, ¬((transport n).success = true ∨
        (400 ≤ (transport n).status_code ∧
          (transport n).status_code < 500)) := by
      intro n
      have h5 := h500 n
      rintro (hs | ⟨h4a, h4b⟩)
      · unfold OllamaCloudProvider.HttpResponse.success at hs
        simp only [Bool.and_eq_true, decide_eq_true_eq] at hs
        omega
      · omega
    rw [hchat]
    dsimp only
    rw [hfuel]
    constructor
    · exact OllamaCloudProvider.retry_loop_attempts_of_retryable transport
        c.retry_backoff_base_ms hret (N + 1) 0
        OllamaCloudProvider.default_http_response
    · apply OllamaCloudProvider.parse_chat_response_failure
      rw [OllamaCloudProvider.retry_loop_final_of_retryable transport
        c.retry_backoff_base_ms hret (N + 1) 0
        OllamaCloudProvider.default_http_response (Nat.succ_pos N)]
      have h5 := h500 (0 + (N + 1) - 1)
      unfold OllamaCloudProvider.HttpResponse.success
      rw [Bool.eq_false_iff]
      intro hs
      simp only [Bool.and_eq_true, decide_eq_true_eq] at hs
      omega
  · intro hstop
    rw [hchat]
    dsimp only
    rw [hfuel]
    exact (OllamaCloudProvider.retry_loop_stop_first transport
      c.retry_backoff_base_ms N OllamaCloudProvider.default_http_response 0
      hstop).1

/-- C5 witness: the configured fixture with default retries (3) makes 4
attempts against an all-500 transport and fails; a 404 or a 2xx answer
stops after one attempt. -/
theorem ollama_chat_retry_attempts_witness :
    (OllamaCloudProvider.chat Fixtures.cfgOllama Fixtures.transport500
      Fixtures.reqMeta).attempts = 4 ∧
    (OllamaCloudProvider.chat Fixtures.cfgOllama Fixtures.transport500
      Fixtures.reqMeta).response.success = false ∧
    (OllamaCloudProvider.chat Fixtures.cfgOllama Fixtures.transport404
      Fixtures.reqMeta).attempts = 1 ∧
    (OllamaCloudProvider.chat Fixtures.cfgOllama Fixtures.transport200
      Fixtures.reqMeta).attempts = 1 := by
  have h500 := (ollama_chat_retry_attempts Fixtures.cfgOllama
    Fixtures.transport500 Fixtures.reqMeta 3 (by decide) (by decide)
    (by decide) (by decide)).1 (fun n => by norm_num [Fixtures.transport500])
  have h404 := (ollama_chat_retry_attempts Fixtures.cfgOllama
    Fixtures.transport404 Fixtures.reqMeta 3 (by decide) (by decide)
    (by decide) (by decide)).2 (Or.inr (by constructor <;> decide))
  have h200 := (ollama_chat_retry_attempts Fixtures.cfgOllama
    Fixtures.transport200 Fixtures.reqMeta 3 (by decide) (by decide)
    (by decide) (by decide)).2 (Or.inl (by decide))
  exact ⟨h500.1, h500.2, h404, h200⟩

/-- C1: a LocalOnly request sent to a network-requiring provider — the
commercial or self-hosted remote provider directly (chat or categorize), or
any network-requiring active provider through the Manager's
chat/categorize — yields `success == false`, `error_code == 403`,
`used_remote_inference == false`, and no client/transport call is made
(client_call is none, transport attempts are 0, the Manager does not
forward). -/
theorem localonly_requests_blocked (pO : OpenAIProvider.State)
    (complete : CompleteFn) (categorize_file : CategorizeFn)
    (c : OllamaCloudProvider.OllamaCloudConfig)
    (transport : OllamaCloudProvider.Transport)
    (m : ProviderManager.State) (p : Provider)
    (filename filepath : String) (is_directory : Bool)
    (consistency_context : String) (request : LlmRequest)
    (hreq : request.privacy_level = .LocalOnly)
    (hactive : ProviderManager.active_provider m = some p)
    (hnet : p.requires_network = true) :
    (PrivacyBlocked403 (OpenAIProvider.chat pO complete request).response ∧
      (OpenAIProvider.chat pO complete request).client_call = none) ∧
    (PrivacyBlocked403 (OpenAIProvider.categorize pO categorize_file filename
        filepath is_directory consistency_context request).response ∧
      (OpenAIProvider.categorize pO categorize_file filename filepath
        is_directory consistency_context request).client_call = none) ∧
    (PrivacyBlocked403
        (OllamaCloudProvider.chat c transport request).response ∧
      (OllamaCloudProvider.chat c transport request).attempts = 0) ∧
    (PrivacyBlocked403
        (OllamaCloudProvider.categorize c transport filename filepath
          is_directory consistency_context request).response ∧
      (OllamaCloudProvider.categorize c transport filename filepath
        is_directory consistency_context request).attempts = 0) ∧
    (PrivacyBlocked403 (ProviderManager.chat m request).1 ∧
      (ProviderManager.chat m request).2 = false) ∧
    (PrivacyBlocked403 (ProviderManager.categorize m filename filepath
        is_directory consistency_context request).1 ∧
      (ProviderManager.categorize m filename filepath is_directory
        consistency_context request).2 = false) := by
  refine ⟨?_, ?_, ?_, ?_, ?_, ?_⟩
  · unfold OpenAIProvider.chat
    rw [if_pos hreq]
    exact ⟨⟨rfl, rfl, rfl⟩, rfl⟩
  · unfold OpenAIProvider.categorize
    rw [if_pos hreq]
    exact ⟨⟨rfl, rfl, rfl⟩, rfl⟩
  · unfold OllamaCloudProvider.chat
    rw [if_pos hreq]
    exact ⟨⟨rfl, rfl, rfl⟩, rfl⟩
  · unfold OllamaCloudProvider.categorize
    rw [if_pos hreq]
    exact ⟨⟨rfl, rfl, rfl⟩, rfl⟩
  · cases hal : ProviderManager.is_provider_allowed m p with
    | false =>
        simp [ProviderManager.chat, hactive, hal, PrivacyBlocked403,
          ProviderManager.create_privacy_blocked_error]
    | true =>
        simp [ProviderManager.chat, hactive, hal, hnet, hreq,
          PrivacyBlocked403]
  · cases hal : ProviderManager.is_provider_allowed m p with
    | false =>
        simp [ProviderManager.categorize, hactive, hal, PrivacyBlocked403,
          ProviderManager.create_privacy_blocked_error]
    | true =>
        simp [ProviderManager.categorize, hactive, hal, hnet, hreq,
          PrivacyBlocked403]

/-- C1 witness: the LocalOnly fixture request is blocked with 403 by the
configured commercial provider, by the Manager with its remote active
provider, and triggers zero transport attempts on the self-hosted
provider. -/
theorem localonly_requests_blocked_witness :
    (PrivacyBlocked403 (OpenAIProvider.chat Fixtures.openaiConfigured
      Fixtures.completeOk Fixtures.reqLocalOnly).response ∧
      (OpenAIProvider.chat Fixtures.openaiConfigured Fixtures.completeOk
        Fixtures.reqLocalOnly).client_call = none) ∧
    (PrivacyBlocked403 (ProviderManager.chat Fixtures.managerRemoteActive
      Fixtures.reqLocalOnly).1 ∧
      (ProviderManager.chat Fixtures.managerRemoteActive
        Fixtures.reqLocalOnly).2 = false) ∧
    (OllamaCloudProvider.chat Fixtures.cfgOllama Fixtures.transport200
      Fixtures.reqLocalOnly).attempts = 0 := by
  have h := localonly_requests_blocked Fixtures.openaiConfigured
    Fixtures.completeOk Fixtures.categorizeOk Fixtures.cfgOllama
    Fixtures.transport200 Fixtures.managerRemoteActive Fixtures.remoteOpenai
    "f.pdf" "/tmp/f.pdf" false "" Fixtures.reqLocalOnly rfl rfl rfl
  exact ⟨h.1, h.2.2.2.2.1, h.2.2.1.2⟩

/-! ## Manager invariant preservation -/

theorem ProviderManager.inv_applyOp (netOf : String → Bool)
    (m : ProviderManager.State) (op : ProviderManager.MgrOp)
    (hop : ProviderManager.MgrOp.RegOK netOf op)
    (hm : ProviderManager.Inv netOf m) :
    ProviderManager.Inv netOf (ProviderManager.applyOp m op) := by
  obtain ⟨hcons, hpres, hsafe⟩ := hm
  cases op with
  | reg provider =>
      cases provider with
      | none => exact ⟨hcons, hpres, hsafe⟩
      | some p =>
          obtain ⟨hpid, hpnet⟩ := hop
          simp only [ProviderManager.applyOp,
            ProviderManager.register_provider]
          refine ⟨?_, ?_, ?_⟩
          · intro kv hkv
            rcases mem_insertP hkv with h | h
            · rw [h]
              exact ⟨hpid, hpnet⟩
            · exact hcons kv h
          · intro hne
            show (lookupP (insertP m.providers p.pid p)
              m.active_provider_id).isSome = true
            by_cases hid : m.active_provider_id = p.pid
            · rw [hid, lookupP_insertP_self]
              rfl
            · rw [lookupP_insertP_ne hid]
              exact hpres hne
          · intro hmode q hq
            have hq' : lookupP (insertP m.providers p.pid p)
                m.active_provider_id = some q := hq
            by_cases hid : m.active_provider_id = p.pid
            · rw [hid, lookupP_insertP_self] at hq'
              injection hq' with hq2
              have hne : m.active_provider_id ≠ "" := by
                rw [hid]; exact hpid
              obtain ⟨r, hr⟩ := Option.isSome_iff_exists.mp (hpres hne)
              have hrnet : r.requires_network = false := hsafe hmode r hr
              have hrcons := (hcons _ (lookupP_mem hr)).2
              rw [← hq2, hpnet, ← hid, ← hrcons]
              exact hrnet
            · rw [lookupP_insertP_ne hid] at hq'
              exact hsafe hmode q hq'
  | unreg provider_id =>
      simp only [ProviderManager.applyOp,
        ProviderManager.unregister_provider]
      by_cases hfound : (lookupP m.providers provider_id).isSome = true
      · rw [if_pos hfound]
        refine ⟨?_, ?_, ?_⟩
        · intro kv hkv
          exact hcons kv (mem_removeP hkv)
        · intro hne
          by_cases hid : m.active_provider_id = provider_id
          · rw [if_pos hid] at hne
            exact absurd rfl hne
          · rw [if_neg hid] at hne
            show (lookupP (removeP m.providers provider_id)
              (if m.active_provider_id = provider_id then ""
                else m.active_provider_id)).isSome = true
            rw [if_neg hid, lookupP_removeP_ne hid]
            exact hpres hne
        · intro hmode q hq
          have hq' : lookupP (removeP m.providers provider_id)
              (if m.active_provider_id = provider_id then ""
                else m.active_provider_id) = some q := hq
          by_cases hid : m.active_provider_id = provider_id
          · rw [if_pos hid] at hq'
            have hnone : lookupP (removeP m.providers provider_id) "" = none :=
              lookupP_none_of_no_key
                (fun kv hkv => (hcons kv (mem_removeP hkv)).1)
            rw [hnone] at hq'
            exact absurd hq' (by simp)
          · rw [if_neg hid, lookupP_removeP_ne hid] at hq'
            exact hsafe hmode q hq'
      · rw [if_neg hfound]
        exact ⟨hcons, hpres, hsafe⟩
  | setActive provider_id =>
      cases hget : ProviderManager.get_provider m provider_id with
      | none =>
          have hstate : ProviderManager.applyOp m (.setActive provider_id)
              = m := by
            simp [ProviderManager.applyOp,
              ProviderManager.set_active_provider, hget]
          rw [hstate]
          exact ⟨hcons, hpres, hsafe⟩
      | some p =>
          cases hal : ProviderManager.is_provider_allowed m p with
          | false =>
              have hstate : ProviderManager.applyOp m (.setActive provider_id)
                  = m := by
                simp [ProviderManager.applyOp,
                  ProviderManager.set_active_provider, hget, hal]
              rw [hstate]
              exact ⟨hcons, hpres, hsafe⟩
          | true =>
              have hstate : ProviderManager.applyOp m (.setActive provider_id)
                  = { m with active_provider_id := provider_id } := by
                simp [ProviderManager.applyOp,
                  ProviderManager.set_active_provider, hget, hal]
              rw [hstate]
              refine ⟨hcons, ?_, ?_⟩
              · intro _
                show (lookupP m.providers provider_id).isSome = true
                have hget' : lookupP m.providers provider_id = some p := hget
                rw [hget']
                rfl
              · intro hmode q hq
                have hq' : lookupP m.providers provider_id = some q := hq
                have hget' : lookupP m.providers provider_id = some p := hget
                rw [hget'] at hq'
                injection hq' with hq2
                cases hpn : p.requires_network with
                | false => rw [← hq2]; exact hpn
                | true =>
                    exfalso
                    rw [ProviderManager.is_provider_allowed, hpn] at hal
                    have hmode' : m.privacy_mode = .LocalOnly := hmode
                    simp [hmode'] at hal
  | setMode mode confirmed =>
      by_cases hfail : mode = .RemoteAllowed ∧ (!confirmed) = true
      · have hstate : ProviderManager.applyOp m (.setMode mode confirmed)
            = m := by
          simp only [ProviderManager.applyOp,
            ProviderManager.set_privacy_mode, if_pos hfail]
        rw [hstate]
        exact ⟨hcons, hpres, hsafe⟩
      · cases mode with
        | RemoteAllowed =>
            have hconf : confirmed = true := by
              rcases Bool.eq_false_or_eq_true confirmed with h | h
              · exact h
              · exact absurd ⟨rfl, by simp [h]⟩ hfail
            have hstate : ProviderManager.applyOp
                m (.setMode .RemoteAllowed confirmed)
                = { m with privacy_mode := .RemoteAllowed } := by
              simp [ProviderManager.applyOp,
                ProviderManager.set_privacy_mode, hconf]
            rw [hstate]
            refine ⟨hcons, fun hne => hpres hne, ?_⟩
            intro hmode
            simp at hmode
        | LocalOnly =>
            by_cases hempty : m.active_provider_id.isEmpty = true
            · have hstate : ProviderManager.applyOp
                  m (.setMode .LocalOnly confirmed)
                  = { m with privacy_mode := .LocalOnly } := by
                simp [ProviderManager.applyOp,
                  ProviderManager.set_privacy_mode, hempty]
              rw [hstate]
              refine ⟨hcons, fun hne => hpres hne, ?_⟩
              intro _ q hq
              have hactive_empty : m.active_provider_id = "" :=
                (String.isEmpty_iff _).mp hempty
              have hq' : lookupP m.providers m.active_provider_id
                  = some q := hq
              rw [hactive_empty,
                lookupP_none_of_no_key (fun kv hkv => (hcons kv hkv).1)] at hq'
              exact absurd hq' (by simp)
            · have hempty' : m.active_provider_id.isEmpty = false := by
                simpa using hempty
              cases hlook : lookupP m.providers m.active_provider_id with
              | none =>
                  have hstate : ProviderManager.applyOp
                      m (.setMode .LocalOnly confirmed)
                      = { m with privacy_mode := .LocalOnly } := by
                    simp [ProviderManager.applyOp,
                      ProviderManager.set_privacy_mode, hempty', hlook]
                  rw [hstate]
                  refine ⟨hcons, fun hne => hpres hne, ?_⟩
                  intro _ q hq
                  have hq' : lookupP m.providers m.active_provider_id
                      = some q := hq
                  rw [hlook] at hq'
                  exact absurd hq' (by simp)
              | some r =>
                  cases hrn : r.requires_network with
                  | true =>
                      have hstate : ProviderManager.applyOp
                          m (.setMode .LocalOnly confirmed)
                          = { m with
                              privacy_mode := .LocalOnly
                              active_provider_id := "" } := by
                        simp [ProviderManager.applyOp,
                          ProviderManager.set_privacy_mode, hempty', hlook,
                          hrn]
                      rw [hstate]
                      refine ⟨hcons, ?_, ?_⟩
                      · intro hne
                        exact absurd rfl hne
                      · intro _ q hq
                        have hq' : lookupP m.providers "" = some q := hq
                        rw [lookupP_none_of_no_key
                          (fun kv hkv => (hcons kv hkv).1)] at hq'
                        exact absurd hq' (by simp)
                  | false =>
                      have hstate : ProviderManager.applyOp
                          m (.setMode .LocalOnly confirmed)
                          = { m with privacy_mode := .LocalOnly } := by
                        simp [ProviderManager.applyOp,
                          ProviderManager.set_privacy_mode, hempty', hlook,
                          hrn]
                      rw [hstate]
                      refine ⟨hcons, fun hne => hpres hne, ?_⟩
                      intro _ q hq
                      have hq' : lookupP m.providers m.active_provider_id
                          = some q := hq
                      rw [hlook] at hq'
                      injection hq' with hq2
                      rw [← hq2]
                      exact hrn

/-- C3 counterexample: register a local provider under identity "dup",
activate it (allowed: mode is the default LocalOnly), then register a
network-requiring provider under the same identity — `register_provider`
replaces the registry entry while the identity stays active, so a LocalOnly
state with a network-requiring active provider is reachable through
register/set_active calls alone, refuting the claim over arbitrary call
sequences. -/
theorem manager_localonly_invariant_counterexample :
    Fixtures.managerAfterReplace.privacy_mode = .LocalOnly ∧
    ProviderManager.active_provider Fixtures.managerAfterReplace =
      some Fixtures.remoteDup ∧
    Fixtures.remoteDup.requires_network = true := by
  refine ⟨rfl, rfl, rfl⟩

/-- C3 (amended): the LocalOnly invariant — if the mode is LocalOnly the
active provider, when present, does not require network — holds in every
state reachable from the initial Manager by register/unregister/
set_active/set_privacy_mode calls, PROVIDED every registered provider has
a non-empty identity and its network requirement is a function of that
identity (as with the shipped variants, whose `id()` and
`requires_network()` are fixed per class; it fails for arbitrary providers,
see the replacement counterexample). Unconditionally:
`set_active_provider` on a registered network-requiring provider returns
false and leaves the state unchanged while the mode is LocalOnly, and
`set_privacy_mode(LocalOnly, _)` succeeds and clears a network-requiring
active provider. -/
theorem manager_localonly_invariant (netOf : String → Bool)
    (ops : List ProviderManager.MgrOp)
    (hops : ∀ op ∈ ops, ProviderManager.MgrOp.RegOK netOf op)
    (m : ProviderManager.State) (p : Provider) (provider_id : String)
    (confirmed : Bool) :
    ((ProviderManager.runOps ProviderManager.construct ops).privacy_mode
        = .LocalOnly →
      ∀ q, ProviderManager.active_provider
          (ProviderManager.runOps ProviderManager.construct ops) = some q →
        q.requires_network = false) ∧
    (m.privacy_mode = .LocalOnly →
      ProviderManager.get_provider m provider_id = some p →
      p.requires_network = true →
      ProviderManager.set_active_provider m provider_id = (false, m)) ∧
    (ProviderManager.active_provider m = some p →
      p.requires_network = true →
      (ProviderManager.set_privacy_mode m .LocalOnly confirmed).1 = true ∧
      (ProviderManager.set_privacy_mode m .LocalOnly
        confirmed).2.active_provider_id = "") := by
  refine ⟨?_, ?_, ?_⟩
  · have hrun : ∀ (l : List ProviderManager.MgrOp)
        (s : ProviderManager.State),
        (∀ op ∈ l, ProviderManager.MgrOp.RegOK netOf op) →
        ProviderManager.Inv netOf s →
        ProviderManager.Inv netOf (ProviderManager.runOps s l) := by
      intro l
      induction l with
      | nil => intro s _ hs; exact hs
      | cons op rest ih =>
          intro s hok hs
          exact ih _ (fun o ho => hok o (List.mem_cons_of_mem _ ho))
            (ProviderManager.inv_applyOp netOf s op
              (hok op (List.mem_cons_self _ _)) hs)
    have hinv0 : ProviderManager.Inv netOf ProviderManager.construct := by
      refine ⟨?_, ?_, ?_⟩
      · intro kv hkv
        exact absurd hkv (List.not_mem_nil kv)
      · intro hne
        exact absurd rfl hne
      · intro _ q hq
        exact absurd hq (by simp [ProviderManager.active_provider,
          ProviderManager.get_provider, lookupP])
    exact (hrun ops ProviderManager.construct hops hinv0).2.2
  · intro hmode hget hnet
    have hget' : ProviderManager.get_provider m provider_id = some p := hget
    have hal : ProviderManager.is_provider_allowed m p = false := by
      rw [ProviderManager.is_provider_allowed, hnet]
      simp [hmode]
    unfold ProviderManager.set_active_provider
    rw [hget']
    show (if (!ProviderManager.is_provider_allowed m p) = true
      then (false, m)
      else (true, { m with active_provider_id := provider_id })) = (false, m)
    rw [hal]
    rfl
  · intro hactive hnet
    constructor
    · unfold ProviderManager.set_privacy_mode
      rw [if_neg (by simp)]
    · unfold ProviderManager.set_privacy_mode
      rw [if_neg (by simp)]
      by_cases hempty : m.active_provider_id.isEmpty = true
      · simp only [hempty]
        simp [(String.isEmpty_iff _).mp hempty]
      · have hempty' : m.active_provider_id.isEmpty = false := by
          simpa using hempty
        have hlook : lookupP m.providers m.active_provider_id = some p :=
          hactive
        simp [hempty', hlook, hnet]

/-- C3 witness: with identity-determined network requirements, a run that
registers a local provider, activates it, and switches modes keeps the
LocalOnly invariant; and the unconditional clauses applied to the
remote-active fixture state. -/
theorem manager_localonly_invariant_witness :
    ((ProviderManager.runOps ProviderManager.construct
        [.reg (some Fixtures.localOne), .setActive "local1"]).privacy_mode
        = .LocalOnly →
      ∀ q, ProviderManager.active_provider
          (ProviderManager.runOps ProviderManager.construct
            [.reg (some Fixtures.localOne), .setActive "local1"]) = some q →
        q.requires_network = false) ∧
    (ProviderManager.set_privacy_mode Fixtures.managerRemoteActive .LocalOnly
      false).2.active_provider_id = "" := by
  have h := manager_localonly_invariant (fun _ => false)
    [.reg (some Fixtures.localOne), .setActive "local1"]
    (by
      intro op hop
      fin_cases hop
      · exact ⟨by decide, rfl⟩
      · exact trivial)
    Fixtures.managerRemoteActive Fixtures.remoteOpenai "openai" false
  exact ⟨h.1, (h.2.2 rfl rfl).2⟩
